import Mathlib

/-!
Verification of the real-time notification service
(notification-service/server.js and its spec).

The offline-retrieval endpoint `GET /notifications/:user_id` and the
WebSocket connection gate are embedded directly from
`src/notification-service/server.js`.  The connection registry, presence
directory, event ingestor and delivery dispatcher live in
`services/notificationManager.js` / `config/kafka.js`, which are not part
of the provided sources; those are modelled from the spec and are marked
as such in their doc comments.

The offline store (a SQL table accessed through the
`OfflineNotification` Sequelize model) is embedded as a list of rows;
`findAll` with an ordering clause is embedded as filter-then-sort, and
`update` as a per-row conditional rewrite, matching SQL semantics.
-/

/-- A row of the offline-notification table.  Fields follow the
`Notification` schema documented in `server.js` (id, user_id, type,
title, message, payload, is_delivered, is_read, created_at).  The
payload is opaque structured data, so it is a type parameter.
`created_at` is an abstract timestamp (larger = newer). -/
structure OfflineNotification (α : Type) where
  id : Nat
  user_id : Nat
  type : String
  title : String
  message : String
  payload : α
  is_delivered : Bool
  is_read : Bool
  created_at : Nat
deriving DecidableEq, Repr

/-- The offline store: the rows of the `OfflineNotification` table. -/
abbrev Store (α : Type) := List (OfflineNotification α)

/-- Ordering used by the endpoint query: `order: [["created_at", "DESC"]]`,
i.e. newest first. -/
def createdDesc {α : Type} (a b : OfflineNotification α) : Prop :=
  b.created_at ≤ a.created_at

instance {α : Type} : DecidableRel (createdDesc (α := α)) :=
  fun a b => Nat.decLe b.created_at a.created_at

instance {α : Type} : IsTotal (OfflineNotification α) createdDesc :=
  ⟨fun a b => (Nat.le_total b.created_at a.created_at).imp id id⟩

instance {α : Type} : IsTrans (OfflineNotification α) createdDesc :=
  ⟨fun _ _ _ h1 h2 => Nat.le_trans h2 h1⟩

/-- The `where` clause of the endpoint query:
`{ user_id, is_read: false, is_delivered: true }`. -/
def unreadDelivered {α : Type} (user_id : Nat) (n : OfflineNotification α) : Bool :=
  n.user_id == user_id && n.is_read == false && n.is_delivered == true

/-- Embedding of
`OfflineNotification.findAll({ where: { user_id, is_read: false, is_delivered: true }, order: [["created_at", "DESC"]] })`:
the rows matching the filter, sorted newest first by `created_at`. -/
def OfflineNotification.findAll {α : Type} (user_id : Nat) (db : Store α) :
    List (OfflineNotification α) :=
  List.insertionSort createdDesc (db.filter (unreadDelivered user_id))

/-- The per-row effect of
`OfflineNotification.update({ is_read: true }, { where: { user_id, is_read: false } })`. -/
def markRow {α : Type} (user_id : Nat) (n : OfflineNotification α) :
    OfflineNotification α :=
  if n.user_id == user_id && n.is_read == false then { n with is_read := true } else n

/-- Embedding of the whole `update` call: every row of the table is
rewritten by `markRow`. -/
def OfflineNotification.update {α : Type} (user_id : Nat) (db : Store α) : Store α :=
  db.map (markRow user_id)

/-- The JSON body of a response of the retrieval endpoint, together with
its HTTP status.  The success body holds only the payloads
(`notifications.map((n) => n.payload)`); the empty and error bodies
carry a message. -/
structure HttpResponse (α : Type) where
  status : Nat
  notifications : List α
  message : Option String
deriving DecidableEq, Repr

/-- Embedding of the handler of `GET /notifications/:user_id`
(`server.js` lines 337–369).  `findFails` / `updateFails` model the two
`await`ed database calls throwing; the `catch` block answers 500 with
`"Failed to retrieve notifications."` and the store is left as it was
when the failing call did not run.  On success the handler first runs
`findAll`, then marks all unread rows of the user read, then answers 200:
with `{notifications: [], message: "No unread offline notifications."}`
when the query was empty, and with the payloads of the queried rows
otherwise. -/
def getNotificationsHandler {α : Type} (findFails updateFails : Bool)
    (user_id : Nat) (db : Store α) : HttpResponse α × Store α :=
  if findFails then
    (⟨500, [], some "Failed to retrieve notifications."⟩, db)
  else
    let notifications := OfflineNotification.findAll user_id db
    if updateFails then
      (⟨500, [], some "Failed to retrieve notifications."⟩, db)
    else
      let db2 := OfflineNotification.update user_id db
      if notifications.length == 0 then
        (⟨200, [], some "No unread offline notifications."⟩, db2)
      else
        (⟨200, notifications.map (fun n => n.payload), none⟩, db2)

/-- The handler on the happy path (both database calls succeed). -/
def getNotifications {α : Type} (user_id : Nat) (db : Store α) :
    HttpResponse α × Store α :=
  getNotificationsHandler false false user_id db

-- ====================================================================
-- Connection registry, presence directory, WebSocket connection gate
-- ====================================================================

/-- Close code sent on a missing or invalid credential:
`ws.close(1008, "Unauthorized: Missing auth token")` in `server.js`. -/
def CLOSE_UNAUTHORIZED : Nat := 1008

/-- Modelled from the spec: the distinct application close code for
"replaced by newer connection" (§6 of the spec); the module carrying it,
`services/notificationManager.js`, is not among the provided sources.
Any application code distinct from 1008 is faithful; 4000 is used. -/
def CLOSE_REPLACED : Nat := 4000

/-- Modelled from the spec: a Connection of the Connection Registry
(`user_id`, socket handle, `connected_at`), owned by one instance.  The
registry implementation (`services/notificationManager.js`) is not among
the provided sources.  Sockets are identified by a handle number. -/
structure Connection where
  user_id : Nat
  socket : Nat
  connected_at : Nat
deriving DecidableEq, Repr

/-- The per-instance in-memory connection registry. -/
abbrev Registry := List Connection

/-- A close frame issued to a socket, with its close code. -/
structure CloseEvent where
  socket : Nat
  code : Nat
deriving DecidableEq, Repr

/-- Modelled from the spec: `register(user_id, socket)` of the
Connection Registry (§4.2): if an existing local socket for `user_id`
is present, close it first with the distinct "replaced" close code,
then store the new socket and record `connected_at`.  Returns the new
registry and the close frames issued. -/
def register (user_id socket connected_at : Nat) (reg : Registry) :
    Registry × List CloseEvent :=
  let olds := reg.filter (fun c => c.user_id == user_id)
  (reg.filter (fun c => !(c.user_id == user_id)) ++ [⟨user_id, socket, connected_at⟩],
   olds.map (fun c => ⟨c.socket, CLOSE_REPLACED⟩))

/-- Modelled from the spec: the Presence Directory (§4.3), keyed by
`user_id`, valued by the owning instance identifier.  The lease TTL and
fan-out channel name play no part in the claims settled here and are
elided. -/
abbrev Presence := List (Nat × Nat)

/-- Modelled from the spec: `claim(user_id, instance_id, ...)`
unconditionally overwrites the presence record (last-writer-wins). -/
def claim (user_id instance_id : Nat) (p : Presence) : Presence :=
  (user_id, instance_id) :: p.filter (fun e => !(e.1 == user_id))

/-- Modelled from the spec: `lookup(user_id)` returns the owning
instance or absent. -/
def lookup (user_id : Nat) (p : Presence) : Option Nat :=
  (p.find? (fun e => e.1 == user_id)).map (fun e => e.2)

/-- The mutable state a WebSocket connection attempt can touch: this
instance's Connection Registry and the shared Presence Directory. -/
structure ServerState where
  registry : Registry
  presence : Presence
deriving DecidableEq, Repr

/-- Modelled from the spec: `handleConnection(ws, token)` of
`services/notificationManager.js` (not among the provided sources).
Per §2 and §4.1–4.3: the Auth Gate validates the credential (rejecting
with close code 1008 on failure, with no registry mutation), then the
Connection Registry registers the socket (evicting any prior local
socket) and the Presence Directory is claimed for this instance. -/
def handleConnection (auth : String → Option Nat) (instance_id now socket : Nat)
    (token : String) (st : ServerState) : ServerState × List CloseEvent :=
  match auth token with
  | none => (st, [⟨socket, CLOSE_UNAUTHORIZED⟩])
  | some user_id =>
    let r := register user_id socket now st.registry
    (⟨r.1, claim user_id instance_id st.presence⟩, r.2)

/-- Embedding of the `wss.on("connection", ...)` handler of `server.js`
(lines 474–485): the token is read from the URL query string; a truthy
token is handed to `handleConnection`, otherwise the socket is closed
at once with code 1008 and the message "Unauthorized: Missing auth
token".  JavaScript truthiness makes both an absent parameter (`null`)
and an empty string falsy. -/
def wssOnConnection (auth : String → Option Nat) (instance_id now socket : Nat)
    (token : Option String) (st : ServerState) : ServerState × List CloseEvent :=
  match token with
  | some t =>
    if t ≠ "" then handleConnection auth instance_id now socket t st
    else (st, [⟨socket, CLOSE_UNAUTHORIZED⟩])
  | none => (st, [⟨socket, CLOSE_UNAUTHORIZED⟩])

-- ====================================================================
-- Event ingestor and delivery dispatcher
-- ====================================================================

/-- Payload attached to an event notification; the scenario of the spec
uses a payload carrying `event_id` 1. -/
structure EventPayload where
  event_id : Nat
deriving DecidableEq, Repr

/-- A domain event from the stream: its `type` discriminator, the
recipient user, and the event-specific identifier. -/
structure DomainEvent where
  type : String
  user_id : Nat
  event_id : Nat
deriving DecidableEq, Repr

/-- A Notification as built by the Event Ingestor, before persistence
assigns `id` and `created_at`. -/
structure NotificationDraft (α : Type) where
  user_id : Nat
  type : String
  title : String
  message : String
  payload : α
deriving DecidableEq, Repr

/-- Modelled from the spec: the per-type transformation table of the
Event Ingestor (§4.4), covering the seven documented event types; the
consumer module (`config/kafka.js`) is not among the provided sources.
Title and message strings follow the examples documented in
`server.js`. -/
def eventTypeTable (t : String) : Option (String × String) :=
  match t with
  | "event_created" => some ("New Event Created", "A new event has been created")
  | "event_updated" => some ("Event Updated", "An event was updated")
  | "event_deleted" => some ("Event Deleted", "An event was deleted")
  | "rsvp_added" => some ("New RSVP", "Someone RSVPed to your event")
  | "rsvp_cancelled" => some ("RSVP Cancelled", "Someone cancelled an RSVP")
  | "user_followed" => some ("New Follower", "Someone followed you")
  | "user_unfollowed" => some ("Follower Lost", "Someone unfollowed you")
  | _ => none

/-- Modelled from the spec: the Event Ingestor (§4.4) maps a domain
event to a Notification through the per-type table; unknown types are
skipped (`none`). -/
def ingestEvent (ev : DomainEvent) : Option (NotificationDraft EventPayload) :=
  (eventTypeTable ev.type).map
    (fun tm => ⟨ev.user_id, ev.type, tm.1, tm.2, ⟨ev.event_id⟩⟩)

/-- Modelled from the spec: the Offline Store insert of §4.5 step 2,
`insert(notification, is_delivered=false)`; `id` and `created_at` are
assigned on persistence, `is_read` is false at creation (§3). -/
def insertOffline {α : Type} (d : NotificationDraft α) (id created_at : Nat)
    (db : Store α) : Store α :=
  db ++ [⟨id, d.user_id, d.type, d.title, d.message, d.payload, false, false, created_at⟩]

/-- What the Delivery Dispatcher did with a notification. -/
inductive DispatchAction where
  | deliveredLocal
  | forwarded (instance_id : Nat)
  | persistedOffline
deriving DecidableEq, Repr

/-- Modelled from the spec: the Delivery Dispatcher algorithm (§4.5);
its module (`services/notificationManager.js`) is not among the
provided sources.  Step 1: look the user up in the Presence Directory.
Step 2: absent → Offline Store insert with `is_delivered=false`.
Step 3: present on this instance → registry send; on send failure fall
through to offline persistence.  Step 4: present on a remote instance →
publish on its fan-out channel; on publish failure persist offline.
`sendOk` / `publishOk` model the outcome of the socket write and the
broker publish. -/
def dispatchNotification {α : Type} (presence : Presence) (self : Nat)
    (sendOk publishOk : Bool) (d : NotificationDraft α) (id created_at : Nat)
    (db : Store α) : Store α × DispatchAction :=
  match lookup d.user_id presence with
  | none => (insertOffline d id created_at db, .persistedOffline)
  | some inst =>
    if inst == self then
      if sendOk then (db, .deliveredLocal)
      else (insertOffline d id created_at db, .persistedOffline)
    else
      if publishOk then (db, .forwarded inst)
      else (insertOffline d id created_at db, .persistedOffline)

/-- Ingest a domain event and dispatch the resulting notification;
malformed or unknown events are skipped and the store is untouched. -/
def dispatchEvent (presence : Presence) (self : Nat) (sendOk publishOk : Bool)
    (ev : DomainEvent) (id created_at : Nat) (db : Store EventPayload) :
    Store EventPayload × Option DispatchAction :=
  match ingestEvent ev with
  | none => (db, none)
  | some d =>
    let r := dispatchNotification presence self sendOk publishOk d id created_at db
    (r.1, some r.2)

-- ====================================================================
-- Concrete sample data
-- ====================================================================

/-- A sample store used to instantiate hypotheses of claim theorems at
concrete inputs: one delivered unread row for user 42. -/
def sampleRow : OfflineNotification EventPayload :=
  ⟨1, 42, "event_created", "New Event Created", "A new event has been created",
    ⟨1⟩, true, false, 5⟩

/-- A sample undelivered unread row for user 42. -/
def sampleUndeliveredRow : OfflineNotification EventPayload :=
  ⟨2, 42, "rsvp_added", "New RSVP", "Someone RSVPed to your event",
    ⟨9⟩, false, false, 7⟩

/-- The scenario event of the spec: `event_created` with `event_id` 1
for user 42. -/
def scenarioEvent : DomainEvent := ⟨"event_created", 42, 1⟩

/-- The store after dispatching the scenario event over an empty
presence directory (user 42 has no connection anywhere) into an empty
store; persistence assigns id 1 and timestamp 5. -/
def scenarioStore : Store EventPayload :=
  (dispatchEvent [] 0 true true scenarioEvent 1 5 []).1

/-- The single row the scenario inserts into the offline store. -/
def scenarioRow : OfflineNotification EventPayload :=
  ⟨1, 42, "event_created", "New Event Created",
    "A new event has been created", ⟨1⟩, false, false, 5⟩

-- ====================================================================
-- Helper lemmas
-- ====================================================================

-- Helper lemmas about the query and the update.

/-- Membership in the query result is exactly the `where` clause. -/
theorem mem_findAll_iff {α : Type} (user_id : Nat) (db : Store α)
    (n : OfflineNotification α) :
    n ∈ OfflineNotification.findAll user_id db ↔
      n ∈ db ∧ n.user_id = user_id ∧ n.is_delivered = true ∧ n.is_read = false := by
  unfold OfflineNotification.findAll
  rw [List.mem_insertionSort, List.mem_filter]
  unfold unreadDelivered
  constructor
  · rintro ⟨hmem, hp⟩
    simp only [Bool.and_eq_true, beq_iff_eq] at hp
    exact ⟨hmem, hp.1.1, hp.2, hp.1.2⟩
  · rintro ⟨hmem, h1, h2, h3⟩
    refine ⟨hmem, ?_⟩
    simp only [Bool.and_eq_true, beq_iff_eq]
    exact ⟨⟨h1, h3⟩, h2⟩

/-- The update never unsets `is_read`. -/
theorem markRow_monotone {α : Type} (user_id : Nat) (n : OfflineNotification α)
    (h : n.is_read = true) : (markRow user_id n).is_read = true := by
  unfold markRow
  simp [h]

/-- After the update, every row of the user is read. -/
theorem update_user_read {α : Type} (user_id : Nat) (db : Store α)
    (m : OfflineNotification α) (hm : m ∈ OfflineNotification.update user_id db)
    (hu : m.user_id = user_id) : m.is_read = true := by
  unfold OfflineNotification.update at hm
  rcases List.mem_map.mp hm with ⟨n, _, rfl⟩
  unfold markRow at hu ⊢
  by_cases hc : (n.user_id == user_id && n.is_read == false) = true
  · rw [if_pos hc]
  · rw [if_neg hc] at hu ⊢
    simp only [Bool.and_eq_true, beq_iff_eq, not_and] at hc
    cases hr : n.is_read with
    | true => rfl
    | false => exact absurd hr (hc hu)

/-- A query over an updated store for the same user is empty. -/
theorem findAll_update_eq_nil {α : Type} (user_id : Nat) (db : Store α) :
    OfflineNotification.findAll user_id (OfflineNotification.update user_id db) = [] := by
  unfold OfflineNotification.findAll
  have hfil : (OfflineNotification.update user_id db).filter (unreadDelivered user_id) = [] := by
    rw [List.filter_eq_nil_iff]
    intro n hn
    unfold OfflineNotification.update at hn
    rcases List.mem_map.mp hn with ⟨m, _, rfl⟩
    unfold unreadDelivered markRow
    by_cases hc : (m.user_id == user_id && m.is_read == false) = true
    · rw [if_pos hc]
      simp
    · rw [if_neg hc]
      simp only [Bool.and_eq_true, beq_iff_eq, not_and] at hc
      intro habs
      simp only [Bool.and_eq_true, beq_iff_eq] at habs
      exact absurd habs.1.2 (by simpa using hc habs.1.1)
  rw [hfil]
  rfl

/-- The happy-path handler always leaves the store updated. -/
theorem getNotifications_store {α : Type} (user_id : Nat) (db : Store α) :
    (getNotifications user_id db).2 = OfflineNotification.update user_id db := by
  unfold getNotifications getNotificationsHandler
  by_cases h : (OfflineNotification.findAll user_id db).length == 0 <;> simp [h]

/-- The happy-path response body lists exactly the payloads of the
queried rows. -/
theorem getNotifications_body {α : Type} (user_id : Nat) (db : Store α) :
    (getNotifications user_id db).1.notifications =
      (OfflineNotification.findAll user_id db).map (fun n => n.payload) := by
  unfold getNotifications getNotificationsHandler
  by_cases h : (OfflineNotification.findAll user_id db).length == 0
  · have : OfflineNotification.findAll user_id db = [] :=
      List.length_eq_zero.mp (by simpa using h)
    simp [h, this]
  · simp [h]


/-- When the query is empty the endpoint answers 200 with an empty list
and the explanatory message. -/
theorem getNotifications_of_findAll_nil {α : Type} (user_id : Nat) (db : Store α)
    (h : OfflineNotification.findAll user_id db = []) :
    (getNotifications user_id db).1 =
      ⟨200, [], some "No unread offline notifications."⟩ := by
  unfold getNotifications getNotificationsHandler
  simp [h]

-- ====================================================================
-- Claim theorems
-- ====================================================================

/-- C1: for every user_id, the offline-retrieval endpoint
`GET /notifications/:user_id` returns exactly the stored notifications
of that user with `is_delivered = true` and `is_read = false`
(membership in the query result is exactly that filter, and the query
result is a permutation of the filtered store), ordered newest first by
`created_at`; the response body lists them in that order. -/
theorem offline_retrieval_returns_unread_delivered_newest_first {α : Type}
    (user_id : Nat) (db : Store α) :
    (getNotifications user_id db).1.notifications =
        (OfflineNotification.findAll user_id db).map (fun n => n.payload)
    ∧ (∀ n : OfflineNotification α,
        n ∈ OfflineNotification.findAll user_id db ↔
          n ∈ db ∧ n.user_id = user_id ∧ n.is_delivered = true ∧ n.is_read = false)
    ∧ List.Sorted createdDesc (OfflineNotification.findAll user_id db)
    ∧ (OfflineNotification.findAll user_id db).Perm
        (db.filter (unreadDelivered user_id)) :=
  ⟨getNotifications_body user_id db,
   mem_findAll_iff user_id db,
   List.sorted_insertionSort createdDesc _,
   List.perm_insertionSort createdDesc _⟩

/-- C1 witness: the endpoint body over the sample store is the payload
list of the query. -/
theorem offline_retrieval_returns_unread_delivered_newest_first_witness :
    (getNotifications 42 [sampleRow]).1.notifications =
      (OfflineNotification.findAll 42 [sampleRow]).map (fun n => n.payload) :=
  (offline_retrieval_returns_unread_delivered_newest_first 42 [sampleRow]).1

/-- C8: for a user with no stored notification that is delivered and
unread, the endpoint answers HTTP 200 with an empty notifications list
and the message "No unread offline notifications.". -/
theorem offline_retrieval_empty_response {α : Type} (user_id : Nat) (db : Store α)
    (h : ∀ n ∈ db, ¬(n.user_id = user_id ∧ n.is_delivered = true ∧ n.is_read = false)) :
    (getNotifications user_id db).1 =
      ⟨200, [], some "No unread offline notifications."⟩ := by
  apply getNotifications_of_findAll_nil
  rcases hx : OfflineNotification.findAll user_id db with _ | ⟨n, l⟩
  · rfl
  · exfalso
    have hn : n ∈ OfflineNotification.findAll user_id db := by
      rw [hx]; exact List.mem_cons_self n l
    rcases (mem_findAll_iff user_id db n).mp hn with ⟨hmem, h1, h2, h3⟩
    exact h n hmem ⟨h1, h2, h3⟩

/-- C8 witness: a store whose only row for user 42 is already read
yields the empty response. -/
theorem offline_retrieval_empty_response_witness :
    (getNotifications 42 [{ sampleRow with is_read := true }]).1 =
      ⟨200, [], some "No unread offline notifications."⟩ :=
  offline_retrieval_empty_response 42 [{ sampleRow with is_read := true }]
    (by decide)

/-- C9: when the query finds at least one row, the response body's
notifications array is exactly the stored rows' `payload` fields in
query order — the response is `status 200`, the payload list, and no
other data (no id, user_id, type, title, message, flags or timestamps
and no message field). -/
theorem offline_retrieval_body_payloads_only {α : Type} (user_id : Nat)
    (db : Store α) (h : OfflineNotification.findAll user_id db ≠ []) :
    (getNotifications user_id db).1 =
      ⟨200, (OfflineNotification.findAll user_id db).map (fun n => n.payload),
        none⟩ := by
  unfold getNotifications getNotificationsHandler
  have hlen : ((OfflineNotification.findAll user_id db).length == 0) = false := by
    rw [beq_eq_false_iff_ne]
    intro h0
    exact h (List.length_eq_zero.mp h0)
  simp [hlen]

/-- C9 witness: with one delivered unread row stored for user 42, the
response is 200 with exactly that row's payload. -/
theorem offline_retrieval_body_payloads_only_witness :
    (getNotifications 42 [sampleRow]).1 =
      ⟨200, (OfflineNotification.findAll 42 [sampleRow]).map (fun n => n.payload),
        none⟩ :=
  offline_retrieval_body_payloads_only 42 [sampleRow] (by decide)

/-- C3: calling the offline-retrieval endpoint twice in a row with no
intervening inserts makes the second call return an empty notifications
list with the explanatory message (the read-then-mark is idempotent). -/
theorem offline_retrieval_idempotent {α : Type} (user_id : Nat) (db : Store α) :
    (getNotifications user_id (getNotifications user_id db).2).1 =
      ⟨200, [], some "No unread offline notifications."⟩ := by
  apply getNotifications_of_findAll_nil
  rw [getNotifications_store]
  exact findAll_update_eq_nil user_id db

/-- C2: whenever the handler answers 200 the store is exactly the
updated store, in which every row of the user is read (so every row
that was unread has been marked); whenever it answers an error nothing
was returned and the store is unchanged.  Together: no notification is
returned without the marking having happened, and on error the state
is untouched. -/
theorem offline_retrieval_marks_unread_atomically {α : Type}
    (findFails updateFails : Bool) (user_id : Nat) (db : Store α) :
    ((getNotificationsHandler findFails updateFails user_id db).1.status = 200 →
        (getNotificationsHandler findFails updateFails user_id db).2 =
          OfflineNotification.update user_id db
      ∧ ∀ m ∈ (getNotificationsHandler findFails updateFails user_id db).2,
          m.user_id = user_id → m.is_read = true)
    ∧ ((getNotificationsHandler findFails updateFails user_id db).1.status ≠ 200 →
        (getNotificationsHandler findFails updateFails user_id db).2 = db
      ∧ (getNotificationsHandler findFails updateFails user_id db).1.notifications
          = []) := by
  cases findFails with
  | true =>
    refine ⟨fun h => absurd h (by simp [getNotificationsHandler]), fun _ => ?_⟩
    simp [getNotificationsHandler]
  | false =>
    cases updateFails with
    | true =>
      refine ⟨fun h => absurd h (by simp [getNotificationsHandler]), fun _ => ?_⟩
      simp [getNotificationsHandler]
    | false =>
      have hst : (getNotificationsHandler false false user_id db).2 =
          OfflineNotification.update user_id db := getNotifications_store user_id db
      have h200 : (getNotificationsHandler false false user_id db).1.status = 200 := by
        unfold getNotificationsHandler
        by_cases h : (OfflineNotification.findAll user_id db).length == 0 <;> simp [h]
      refine ⟨fun _ => ⟨hst, fun m hm hu => ?_⟩, fun h => absurd h200 h⟩
      rw [hst] at hm
      exact update_user_read user_id db m hm hu

/-- C2 witness: on the sample store the successful handler leaves the
updated store, where the row of user 42 is read; with a failing query
the store is unchanged and nothing is returned. -/
theorem offline_retrieval_marks_unread_atomically_witness :
    ((getNotificationsHandler false false 42 [sampleRow]).2 =
        OfflineNotification.update 42 [sampleRow]
      ∧ ∀ m ∈ (getNotificationsHandler false false 42 [sampleRow]).2,
          m.user_id = 42 → m.is_read = true)
    ∧ ((getNotificationsHandler true false 42 [sampleRow]).2 = [sampleRow]
      ∧ (getNotificationsHandler true false 42 [sampleRow]).1.notifications = []) :=
  ⟨(offline_retrieval_marks_unread_atomically false false 42 [sampleRow]).1
      (by decide),
   (offline_retrieval_marks_unread_atomically true false 42 [sampleRow]).2
      (by decide)⟩

/-- C5: the registry holds at most one entry per user: `register`
preserves the at-most-one invariant, leaves exactly one entry for the
registered user, closes every previously stored socket of that user
with the distinct "replaced" close code, stores the new socket, and a
second `register` for the same user again leaves exactly one entry. -/
theorem connection_registry_at_most_one_entry (reg : Registry)
    (user_id socket connected_at socket2 connected_at2 : Nat)
    (hinv : ∀ v, reg.countP (fun c => c.user_id == v) ≤ 1) :
    (∀ v, (register user_id socket connected_at reg).1.countP
        (fun c => c.user_id == v) ≤ 1)
    ∧ (register user_id socket connected_at reg).1.countP
        (fun c => c.user_id == user_id) = 1
    ∧ (∀ c ∈ reg, c.user_id = user_id →
        (⟨c.socket, CLOSE_REPLACED⟩ : CloseEvent)
          ∈ (register user_id socket connected_at reg).2)
    ∧ (⟨user_id, socket, connected_at⟩ : Connection)
        ∈ (register user_id socket connected_at reg).1
    ∧ (register user_id socket2 connected_at2
        (register user_id socket connected_at reg).1).1.countP
          (fun c => c.user_id == user_id) = 1
    ∧ CLOSE_REPLACED ≠ CLOSE_UNAUTHORIZED := by
  have hkeep0 : ∀ (l : Registry),
      (l.filter (fun c => !(c.user_id == user_id))).countP
        (fun c => c.user_id == user_id) = 0 := by
    intro l
    rw [List.countP_eq_zero]
    intro c hc
    have := (List.mem_filter.mp hc).2
    simpa using this
  have hcount : ∀ (l : Registry),
      (register user_id socket connected_at l).1.countP
        (fun c => c.user_id == user_id) = 1 := by
    intro l
    unfold register
    rw [List.countP_append, hkeep0 l]
    simp
  have hcount2 : ∀ (l : Registry) (s t : Nat),
      (register user_id s t l).1.countP (fun c => c.user_id == user_id) = 1 := by
    intro l s t
    unfold register
    rw [List.countP_append, hkeep0 l]
    simp
  refine ⟨?_, hcount reg, ?_, ?_, hcount2 _ socket2 connected_at2, by decide⟩
  · intro v
    by_cases hv : v = user_id
    · subst hv
      exact Nat.le_of_eq (hcount reg)
    · unfold register
      rw [List.countP_append]
      have h1 : (reg.filter (fun c => !(c.user_id == user_id))).countP
          (fun c => c.user_id == v) ≤ reg.countP (fun c => c.user_id == v) :=
        (List.filter_sublist reg).countP_le _
      have h2 : ([(⟨user_id, socket, connected_at⟩ : Connection)]).countP
          (fun c => c.user_id == v) = 0 := by
        rw [List.countP_eq_zero]
        intro c hc
        rw [List.mem_singleton] at hc
        subst hc
        simpa using fun h => hv h.symm
      rw [h2]
      exact Nat.le_trans (Nat.add_le_add_right h1 0)
        (by simpa using hinv v)
  · intro c hc hcu
    unfold register
    apply List.mem_map_of_mem
    rw [List.mem_filter]
    exact ⟨hc, by simpa using hcu⟩
  · unfold register
    exact List.mem_append_right _ (List.mem_singleton.mpr rfl)

/-- C5 witness: starting from a registry holding one connection of
user 7, registering a new socket for user 7 closes the old socket with
the "replaced" code and leaves exactly one entry. -/
theorem connection_registry_at_most_one_entry_witness :
    (register 7 2 10 [⟨7, 1, 0⟩]).1.countP (fun c => c.user_id == 7) = 1
    ∧ (⟨1, CLOSE_REPLACED⟩ : CloseEvent) ∈ (register 7 2 10 [⟨7, 1, 0⟩]).2 :=
  ⟨(connection_registry_at_most_one_entry [⟨7, 1, 0⟩] 7 2 10 3 11
      (fun v => List.countP_le_length _)).2.1,
   (connection_registry_at_most_one_entry [⟨7, 1, 0⟩] 7 2 10 3 11
      (fun v => List.countP_le_length _)).2.2.1 ⟨7, 1, 0⟩ (by decide) rfl⟩

/-- C6: a WebSocket connection request whose URL carries no token query
parameter is rejected immediately with close code 1008, and neither the
Connection Registry nor the Presence Directory is mutated (the server
state is returned unchanged). -/
theorem missing_token_rejected_1008 (auth : String → Option Nat)
    (instance_id now socket : Nat) (st : ServerState) :
    wssOnConnection auth instance_id now socket none st
        = (st, [⟨socket, CLOSE_UNAUTHORIZED⟩])
    ∧ CLOSE_UNAUTHORIZED = 1008 :=
  ⟨rfl, rfl⟩

/-- C7: `is_read` is false at creation and never unset.  Offline
persistence appends a single row with `is_read = false`, leaving every
existing row untouched; the endpoint's per-row update never turns
`is_read` from true to false; the retrieval handler's store is either
unchanged or that per-row update; and dispatch either leaves the store
unchanged or performs the offline insert. -/
theorem is_read_monotone {α : Type} :
    (∀ (d : NotificationDraft α) (id created_at : Nat) (db : Store α),
      insertOffline d id created_at db =
        db ++ [⟨id, d.user_id, d.type, d.title, d.message, d.payload,
                false, false, created_at⟩])
    ∧ (∀ (user_id : Nat) (n : OfflineNotification α),
        n.is_read = true → (markRow user_id n).is_read = true)
    ∧ (∀ (findFails updateFails : Bool) (user_id : Nat) (db : Store α),
        (getNotificationsHandler findFails updateFails user_id db).2 = db
        ∨ (getNotificationsHandler findFails updateFails user_id db).2 =
            db.map (markRow user_id))
    ∧ (∀ (presence : Presence) (self : Nat) (sendOk publishOk : Bool)
        (d : NotificationDraft α) (id created_at : Nat) (db : Store α),
        (dispatchNotification presence self sendOk publishOk d id created_at db).1
            = db
        ∨ (dispatchNotification presence self sendOk publishOk d id created_at db).1
            = insertOffline d id created_at db) := by
  refine ⟨fun _ _ _ _ => rfl, markRow_monotone, ?_, ?_⟩
  · intro ff uf user_id db
    cases ff with
    | true => exact Or.inl rfl
    | false =>
      cases uf with
      | true => exact Or.inl rfl
      | false => exact Or.inr (getNotifications_store user_id db)
  · intro presence self sendOk publishOk d id created_at db
    unfold dispatchNotification
    rcases lookup d.user_id presence with _ | inst
    · exact Or.inr rfl
    · by_cases hi : (inst == self) = true
      · cases sendOk with
        | true => simp [hi]
        | false => simp [hi]
      · rw [Bool.not_eq_true] at hi
        cases publishOk with
        | true => simp [hi]
        | false => simp [hi]

/-- C7 witness: an already-read sample row stays read under the per-row
update of the endpoint. -/
theorem is_read_monotone_witness :
    (markRow 42 { sampleRow with is_read := true }).is_read = true :=
  (is_read_monotone (α := EventPayload)).2.1 42
    { sampleRow with is_read := true } (by decide)

/-- C10: a stored row of the user with `is_delivered = false` is never
part of any query result (the query filters on `is_delivered = true`),
yet the retrieval call marks it read; and a row that is read is never
part of any later query result, so the row can never be returned. -/
theorem undelivered_rows_marked_read_unreturned {α : Type} (user_id : Nat)
    (db : Store α) (n : OfflineNotification α) (hmem : n ∈ db)
    (hu : n.user_id = user_id) (hd : n.is_delivered = false) :
    (∀ (user_id2 : Nat) (db2 : Store α),
        n ∉ OfflineNotification.findAll user_id2 db2)
    ∧ markRow user_id n ∈ (getNotifications user_id db).2
    ∧ (markRow user_id n).is_read = true
    ∧ (∀ (user_id2 : Nat) (db2 : Store α) (m : OfflineNotification α),
        m.is_read = true → m ∉ OfflineNotification.findAll user_id2 db2) := by
  refine ⟨?_, ?_, ?_, ?_⟩
  · intro user_id2 db2 habs
    rcases (mem_findAll_iff user_id2 db2 n).mp habs with ⟨_, _, h2, _⟩
    rw [hd] at h2
    cases h2
  · rw [getNotifications_store]
    exact List.mem_map_of_mem (markRow user_id) hmem
  · unfold markRow
    cases hr : n.is_read with
    | true =>
      rw [if_neg (by simp [hr])]
      exact hr
    | false =>
      rw [if_pos (by simp [hu, hr])]
  · intro user_id2 db2 m hr habs
    rcases (mem_findAll_iff user_id2 db2 m).mp habs with ⟨_, _, _, h3⟩
    rw [hr] at h3
    cases h3

/-- C10 witness: the sample undelivered row of user 42 is absent from
the query result over its own store, and is marked read by the call. -/
theorem undelivered_rows_marked_read_unreturned_witness :
    sampleUndeliveredRow ∉ OfflineNotification.findAll 42 [sampleUndeliveredRow]
    ∧ markRow 42 sampleUndeliveredRow ∈ (getNotifications 42 [sampleUndeliveredRow]).2
    ∧ (markRow 42 sampleUndeliveredRow).is_read = true :=
  ⟨(undelivered_rows_marked_read_unreturned 42 [sampleUndeliveredRow]
      sampleUndeliveredRow (by simp) rfl rfl).1 42 [sampleUndeliveredRow],
   (undelivered_rows_marked_read_unreturned 42 [sampleUndeliveredRow]
      sampleUndeliveredRow (by simp) rfl rfl).2.1,
   (undelivered_rows_marked_read_unreturned 42 [sampleUndeliveredRow]
      sampleUndeliveredRow (by simp) rfl rfl).2.2.1⟩

/-- C4 counterexample: dispatching the scenario event with user 42
absent everywhere gains the offline store exactly one row with
`is_delivered = false`, `is_read = false`, payload `event_id` 1 — but
the later retrieval call by user 42 does NOT return that notification:
its body is the empty list, not the stored payload, because the
endpoint filters on `is_delivered = true` while the dispatcher inserts
with `is_delivered = false`. -/
theorem offline_scenario_counterexample :
    scenarioStore = [scenarioRow]
    ∧ (getNotifications 42 scenarioStore).1.notifications = []
    ∧ (getNotifications 42 scenarioStore).1.notifications
        ≠ [(⟨1⟩ : EventPayload)] := by
  refine ⟨rfl, rfl, ?_⟩
  intro h
  cases h

/-- C4 amended: the scenario gains the offline store exactly one row
with user 42, `is_delivered = false`, `is_read = false` and payload
`event_id` 1; the later retrieval call by user 42 returns the empty
list with the message "No unread offline notifications." (the
undelivered row is marked read without being returned), and so does a
subsequent call. -/
theorem offline_scenario_amended :
    scenarioStore = [scenarioRow]
    ∧ (getNotifications 42 scenarioStore).1 =
        ⟨200, [], some "No unread offline notifications."⟩
    ∧ (getNotifications 42 scenarioStore).2 = [{ scenarioRow with is_read := true }]
    ∧ (getNotifications 42 (getNotifications 42 scenarioStore).2).1 =
        ⟨200, [], some "No unread offline notifications."⟩ :=
  ⟨rfl, rfl, rfl, rfl⟩
